import Mathlib

/-!
Verification of the document-verification pipeline of this repository
(backend/validators.py, backend/verify.py, backend/extract.py).

The Python code is shallowly embedded as executable Lean definitions:

* JSON values returned by `json.loads` are modelled by the inductive type
  `Json`; floating-point literals are kept as their lexeme (no claim below
  compares float values, only parse success and shape matter).
* A field record (the result of an extraction call) is an association list
  from keys to `Json` values; `FieldRecord.get` models Python's `d.get(k)`,
  which returns `None` both for an absent key and a stored `null` (the two
  are indistinguishable through `.get`, and every validator reads records
  only through `.get`).
* The external model gateway (the Fireworks LLM call) is the sole I/O
  boundary; functions that consult it take the model's reply text as an
  explicit argument.
* `datetime.date.today()` is modelled by an explicit `today : Date`
  argument.
* Python exceptions that escape a function are modelled with `Option` or
  `Except`; exceptions absorbed by a `try/except` are folded into the
  result exactly where the source absorbs them.
* `str.upper`, `str.lower` are modelled on ASCII (every concrete input
  below is ASCII); `unicodedata.normalize("NFKD", _)` is modelled by a
  finite decomposition table for common precomposed Latin letters and the
  identity elsewhere.
-/

/-- Status of one validation outcome, as rendered by the UI. -/
inductive Status where
  | pass
  | fail
  | warn
deriving DecidableEq

/-- One element of the validator output list: `{"name": ..., "status": ...}`. -/
structure Outcome where
  name : String
  status : Status
deriving DecidableEq

/-- Values produced by `json.loads`.  A number without fraction or exponent
is an integer (`num`); a number with a fraction or exponent, and the
non-finite literals `NaN`/`Infinity`/`-Infinity`, keep their lexeme
(`float`).  Objects are association lists in key-insertion order with
unique keys, as Python dicts are. -/
inductive Json where
  | null
  | bool (b : Bool)
  | num (n : Int)
  | float (lexeme : String)
  | str (s : String)
  | arr (elems : List Json)
  | obj (fields : List (String × Json))

/-- Python truthiness of a JSON value.  A `float` is falsy exactly when its
numeric value is zero: no nonzero digit in the lexeme and not one of the
non-finite literals (which contain `N` or `I`). -/
def Json.truthy : Json → Bool
  | .null => false
  | .bool b => b
  | .num n => n != 0
  | .float lexeme => lexeme.data.any (fun c => ('1' ≤ c && c ≤ '9') || c = 'N' || c = 'I')
  | .str s => s != ""
  | .arr elems => !elems.isEmpty
  | .obj fields => !fields.isEmpty

/-- An extracted field record: the dict handed to the validators. -/
def FieldRecord : Type := List (String × Json)

/-- Python `d.get(k)`: the stored value, or `None` when the key is absent.
A stored `null` and an absent key are both returned as `Json.null`. -/
def FieldRecord.get (d : FieldRecord) (k : String) : Json :=
  match List.find? (fun p => p.1 = k) d with
  | some p => p.2
  | none => Json.null

/-- Membership for field records (association-list membership). -/
def FieldRecord.entries (d : FieldRecord) : List (String × Json) := d

/-- The data-model invariant of §3 of the specification: every stored value
of a field record is `null` or a string. -/
def isNullOrStr : Json → Bool
  | .null => true
  | .str _ => true
  | _ => false

/-- A record that respects the FieldRecord data model (optional strings). -/
def WellFormedRecord (d : FieldRecord) : Prop :=
  ∀ p ∈ d.entries, isNullOrStr p.2 = true

instance (d : FieldRecord) : Decidable (WellFormedRecord d) :=
  List.decidableBAll _ d.entries

/- ===== Python string helpers ===== -/

/-- Whitespace stripped by Python `str.strip()` (ASCII part). -/
def isPyWs (c : Char) : Bool :=
  c = ' ' || c = '\t' || c = '\n' || c = '\r' || c = '\x0b' || c = '\x0c'

/-- Python `text.strip()`. -/
def pyStrip (s : String) : String :=
  String.mk (((s.data.dropWhile isPyWs).reverse.dropWhile isPyWs).reverse)

def isAsciiLetter (c : Char) : Bool :=
  ('a' ≤ c && c ≤ 'z') || ('A' ≤ c && c ≤ 'Z')

/-- The backquote character (code point 96). -/
def backquote : Char := Char.ofNat 96

/-- First alternative of the fence regex: `^` + three backquotes +
`[a-zA-Z]*` + a newline; returns the rest after the consumed match.
Only called at a line start. -/
def fenceOpen (cs : List Char) : Option (List Char) :=
  match cs with
  | a :: b :: c :: rest =>
    if a = backquote && b = backquote && c = backquote then
      match rest.dropWhile isAsciiLetter with
      | '\n' :: tail => some tail
      | _ => none
    else none
  | _ => none

/-- Second alternative of the fence regex: a newline + three backquotes +
`$` (next char is a newline or the end).  The trailing newline, if any,
stays in the remainder. -/
def fenceClose (cs : List Char) : Option (List Char) :=
  match cs with
  | '\n' :: a :: b :: c :: rest =>
    if a = backquote && b = backquote && c = backquote then
      match rest with
      | [] => some []
      | '\n' :: _ => some rest
      | _ => none
    else none
  | _ => none

/-- Left-to-right scan of `re.sub(r"^(three backquotes)[a-zA-Z]*\n|\n(three
backquotes)$", "", text, flags=re.MULTILINE)`: at each position try the
first alternative (only at a line start), then the second; on a match,
drop it and continue after it, otherwise keep the character.  After the
first alternative the scan stands right after a newline (line start);
after the second it stands after a backquote (not a line start). -/
def scanFence : Nat → List Char → Bool → List Char
  | 0, cs, _ => cs
  | _ + 1, [], _ => []
  | fuel + 1, cs@(c :: rest), atLineStart =>
    match (if atLineStart then fenceOpen cs else none) with
    | some tail => scanFence fuel tail true
    | none =>
      match fenceClose cs with
      | some tail => scanFence fuel tail false
      | none => c :: scanFence fuel rest (c = '\n')

/-- The `re.sub` call of `extract_bytes` (line 52 of extract.py). -/
def stripFence (s : String) : String :=
  String.mk (scanFence (s.data.length + 1) s.data true)

/- ===== JSON decoding (model of json.loads) ===== -/

/-- Whitespace skipped by the strict JSON decoder. -/
def isJsonWs (c : Char) : Bool :=
  c = ' ' || c = '\t' || c = '\n' || c = '\r'

def hexVal (c : Char) : Option Nat :=
  if '0' ≤ c && c ≤ '9' then some (c.toNat - 48)
  else if 'a' ≤ c && c ≤ 'f' then some (c.toNat - 87)
  else if 'A' ≤ c && c ≤ 'F' then some (c.toNat - 55)
  else none

/-- Body of a JSON string after the opening quote: returns the decoded
characters and the rest after the closing quote.  Strict mode: raw control
characters are rejected, only the standard escapes are allowed. -/
def parseJStringAux : List Char → Option (List Char × List Char)
  | [] => none
  | '"' :: rest => some ([], rest)
  | '\\' :: esc =>
    match esc with
    | '"' :: r => (parseJStringAux r).map (fun p => ('"' :: p.1, p.2))
    | '\\' :: r => (parseJStringAux r).map (fun p => ('\\' :: p.1, p.2))
    | '/' :: r => (parseJStringAux r).map (fun p => ('/' :: p.1, p.2))
    | 'b' :: r => (parseJStringAux r).map (fun p => ('\x08' :: p.1, p.2))
    | 'f' :: r => (parseJStringAux r).map (fun p => ('\x0c' :: p.1, p.2))
    | 'n' :: r => (parseJStringAux r).map (fun p => ('\n' :: p.1, p.2))
    | 'r' :: r => (parseJStringAux r).map (fun p => ('\r' :: p.1, p.2))
    | 't' :: r => (parseJStringAux r).map (fun p => ('\t' :: p.1, p.2))
    | 'u' :: h1 :: h2 :: h3 :: h4 :: r =>
      match hexVal h1, hexVal h2, hexVal h3, hexVal h4 with
      | some a, some b, some c, some d =>
        (parseJStringAux r).map
          (fun p => (Char.ofNat (4096 * a + 256 * b + 16 * c + d) :: p.1, p.2))
      | _, _, _, _ => none
    | _ => none
  | c :: rest =>
    if c.toNat < 32 then none
    else (parseJStringAux rest).map (fun p => (c :: p.1, p.2))

def digitsToNat (ds : List Char) : Nat :=
  ds.foldl (fun a c => 10 * a + (c.toNat - 48)) 0

/-- A JSON number per the strict grammar
`-?(0|[1-9][0-9]*)(\.[0-9]+)?([eE][-+]?[0-9]+)?`: an integer when fraction
and exponent are absent, otherwise a `float` keeping the lexeme. -/
def parseNumber (cs : List Char) : Option (Json × List Char) :=
  let signed : Bool × List Char := match cs with
    | '-' :: r => (true, r)
    | _ => (false, cs)
  match signed.2 with
  | [] => none
  | c :: rest =>
    if !c.isDigit then none
    else
      let intPart : List Char × List Char :=
        if c = '0' then ([c], rest)
        else (c :: rest.takeWhile Char.isDigit, rest.dropWhile Char.isDigit)
      let fracPart : List Char × List Char :=
        match intPart.2 with
        | '.' :: r =>
          let ds := r.takeWhile Char.isDigit
          if ds.isEmpty then ([], intPart.2)
          else ('.' :: ds, r.dropWhile Char.isDigit)
        | _ => ([], intPart.2)
      let expPart : List Char × List Char :=
        match fracPart.2 with
        | 'e' :: '+' :: r =>
          let ds := r.takeWhile Char.isDigit
          if ds.isEmpty then ([], fracPart.2)
          else ('e' :: '+' :: ds, r.dropWhile Char.isDigit)
        | 'e' :: '-' :: r =>
          let ds := r.takeWhile Char.isDigit
          if ds.isEmpty then ([], fracPart.2)
          else ('e' :: '-' :: ds, r.dropWhile Char.isDigit)
        | 'e' :: r =>
          let ds := r.takeWhile Char.isDigit
          if ds.isEmpty then ([], fracPart.2)
          else ('e' :: ds, r.dropWhile Char.isDigit)
        | 'E' :: '+' :: r =>
          let ds := r.takeWhile Char.isDigit
          if ds.isEmpty then ([], fracPart.2)
          else ('E' :: '+' :: ds, r.dropWhile Char.isDigit)
        | 'E' :: '-' :: r =>
          let ds := r.takeWhile Char.isDigit
          if ds.isEmpty then ([], fracPart.2)
          else ('E' :: '-' :: ds, r.dropWhile Char.isDigit)
        | 'E' :: r =>
          let ds := r.takeWhile Char.isDigit
          if ds.isEmpty then ([], fracPart.2)
          else ('E' :: ds, r.dropWhile Char.isDigit)
        | _ => ([], fracPart.2)
      if fracPart.1.isEmpty && expPart.1.isEmpty then
        let v : Int := Int.ofNat (digitsToNat intPart.1)
        some (Json.num (if signed.1 then -v else v), intPart.2)
      else
        let lexeme := (if signed.1 then ['-'] else []) ++ intPart.1 ++ fracPart.1 ++ expPart.1
        some (Json.float (String.mk lexeme), expPart.2)

/-- Python dict insertion while decoding an object literal: a repeated key
keeps its first position and takes the later value. -/
def insertKey (l : List (String × Json)) (k : String) (v : Json) : List (String × Json) :=
  if l.any (fun p => p.1 = k) then
    l.map (fun p => if p.1 = k then (k, v) else p)
  else l ++ [(k, v)]

mutual

/-- One JSON value, leading whitespace allowed; returns the rest. -/
def parseValue : Nat → List Char → Option (Json × List Char)
  | 0, _ => none
  | fuel + 1, cs =>
    match cs.dropWhile isJsonWs with
    | '"' :: rest => (parseJStringAux rest).map (fun p => (Json.str (String.mk p.1), p.2))
    | 'n' :: 'u' :: 'l' :: 'l' :: rest => some (Json.null, rest)
    | 't' :: 'r' :: 'u' :: 'e' :: rest => some (Json.bool true, rest)
    | 'f' :: 'a' :: 'l' :: 's' :: 'e' :: rest => some (Json.bool false, rest)
    | 'N' :: 'a' :: 'N' :: rest => some (Json.float "NaN", rest)
    | 'I' :: 'n' :: 'f' :: 'i' :: 'n' :: 'i' :: 't' :: 'y' :: rest =>
      some (Json.float "Infinity", rest)
    | '-' :: 'I' :: 'n' :: 'f' :: 'i' :: 'n' :: 'i' :: 't' :: 'y' :: rest =>
      some (Json.float "-Infinity", rest)
    | '[' :: rest =>
      (match rest.dropWhile isJsonWs with
       | ']' :: r => some (Json.arr [], r)
       | _ => parseArrLoop fuel rest [])
    | '\x7b' :: rest =>
      (match rest.dropWhile isJsonWs with
       | '\x7d' :: r => some (Json.obj [], r)
       | _ => parseObjLoop fuel rest [])
    | rest => parseNumber rest

/-- Elements of a non-empty array after `[` or a `,`. -/
def parseArrLoop : Nat → List Char → List Json → Option (Json × List Char)
  | 0, _, _ => none
  | fuel + 1, cs, acc =>
    match parseValue fuel cs with
    | none => none
    | some (v, r) =>
      match r.dropWhile isJsonWs with
      | ',' :: r2 => parseArrLoop fuel r2 (acc ++ [v])
      | ']' :: r2 => some (Json.arr (acc ++ [v]), r2)
      | _ => none

/-- Members of a non-empty object after the opening brace or a `,`. -/
def parseObjLoop : Nat → List Char → List (String × Json) → Option (Json × List Char)
  | 0, _, _ => none
  | fuel + 1, cs, acc =>
    match cs.dropWhile isJsonWs with
    | '"' :: r =>
      (match parseJStringAux r with
       | none => none
       | some (k, r1) =>
         match r1.dropWhile isJsonWs with
         | ':' :: r2 =>
           (match parseValue fuel r2 with
            | none => none
            | some (v, r3) =>
              let acc2 := insertKey acc (String.mk k) v
              match r3.dropWhile isJsonWs with
              | ',' :: r4 => parseObjLoop fuel r4 acc2
              | '\x7d' :: r4 => some (Json.obj acc2, r4)
              | _ => none)
         | _ => none)
    | _ => none

end

/-- The strict decoder `json.loads`: one value, then only trailing
whitespace. -/
def Json.parse (s : String) : Option Json :=
  match parseValue (2 * s.data.length + 2) s.data with
  | some (v, rest) => if rest.dropWhile isJsonWs = [] then some v else none
  | none => none

/-- Model of `FireworksLLM.extract_bytes` (extract.py lines 38-56).  The
chat-completion call is the external gateway; its reply text is the
`resp_text` argument (`prompt` is sent to the model and does not influence
the local computation).  The source strips the reply, removes code-fence
markers with `re.sub`, then returns `json.loads(text)` — whatever value it
decodes to — and `{}` if decoding raises. -/
def extract_bytes (prompt : String) (resp_text : String) : Json :=
  let _ := prompt
  match Json.parse (stripFence (pyStrip resp_text)) with
  | some j => j
  | none => Json.obj []

/- ===== Calendar dates (model of datetime.date) ===== -/

/-- A calendar date as held by `datetime.date`. -/
structure Date where
  year : Nat
  month : Nat
  day : Nat
deriving DecidableEq

def isLeap (y : Nat) : Bool :=
  y % 4 = 0 && (y % 100 != 0 || y % 400 = 0)

def daysInMonth (y m : Nat) : Nat :=
  if m = 2 then (if isLeap y then 29 else 28)
  else if m = 4 || m = 6 || m = 9 || m = 11 then 30
  else 31

/-- The dates `datetime.date(y, m, d)` accepts (MINYEAR = 1, MAXYEAR = 9999). -/
def Date.valid (d : Date) : Bool :=
  1 ≤ d.year && d.year ≤ 9999 && 1 ≤ d.month && d.month ≤ 12 &&
  1 ≤ d.day && d.day ≤ daysInMonth d.year d.month

def daysBeforeYear (y : Nat) : Nat :=
  365 * (y - 1) + (y - 1) / 4 - (y - 1) / 100 + (y - 1) / 400

def daysBeforeMonth (y m : Nat) : Nat :=
  ((List.range (m - 1)).map (fun i => daysInMonth y (i + 1))).sum

/-- Python `date.toordinal()`: day count with 0001-01-01 as day 1, so that
`(a - b).days = a.toordinal() - b.toordinal()`. -/
def Date.toOrdinal (d : Date) : Nat :=
  daysBeforeYear d.year + daysBeforeMonth d.year d.month + d.day

def padTwo (n : Nat) : String :=
  if n < 10 then "0" ++ toString n else toString n

def padFour (n : Nat) : String :=
  if n < 10 then "000" ++ toString n
  else if n < 100 then "00" ++ toString n
  else if n < 1000 then "0" ++ toString n
  else toString n

/-- Python `date.isoformat()`: zero-padded `YYYY-MM-DD`. -/
def Date.iso (d : Date) : String :=
  padFour d.year ++ "-" ++ padTwo d.month ++ "-" ++ padTwo d.day

/- ===== strptime (the four formats the source uses) =====

CPython's `_strptime` compiles a format into a regex built from
`%Y ↦ \d\d\d\d`, `%m ↦ 1[0-2]|0[1-9]|[1-9]`,
`%d ↦ 3[01]|[12]\d|0[1-9]|[1-9]` plus the literal separators, requires the
regex to consume the whole input, and then constructs the date, which
raises for a calendar-invalid combination.  The alternation candidates are
tried in regex order with backtracking; the candidate lists below reproduce
that order. -/

def digitVal (c : Char) : Nat := c.toNat - 48

/-- `%Y`: exactly four digits. -/
def yearMatch : List Char → Option (Nat × List Char)
  | a :: b :: c :: d :: rest =>
    if a.isDigit && b.isDigit && c.isDigit && d.isDigit then
      some (1000 * digitVal a + 100 * digitVal b + 10 * digitVal c + digitVal d, rest)
    else none
  | _ => none

/-- `%m` alternation candidates in regex order: `1[0-2]`, `0[1-9]`, then
the single digit `[1-9]`. -/
def monthCands : List Char → List (Nat × List Char)
  | c1 :: c2 :: rest =>
    (if c1 = '1' && '0' ≤ c2 && c2 ≤ '2' then [(10 + digitVal c2, rest)]
     else if c1 = '0' && '1' ≤ c2 && c2 ≤ '9' then [(digitVal c2, rest)]
     else []) ++
    (if '1' ≤ c1 && c1 ≤ '9' then [(digitVal c1, c2 :: rest)] else [])
  | [c1] => if '1' ≤ c1 && c1 ≤ '9' then [(digitVal c1, [])] else []
  | [] => []

/-- `%d` alternation candidates in regex order: `3[01]`, `[12]\d`,
`0[1-9]`, then the single digit `[1-9]`. -/
def dayCands : List Char → List (Nat × List Char)
  | c1 :: c2 :: rest =>
    (if c1 = '3' && '0' ≤ c2 && c2 ≤ '1' then [(30 + digitVal c2, rest)]
     else if ('1' ≤ c1 && c1 ≤ '2') && c2.isDigit then [(10 * digitVal c1 + digitVal c2, rest)]
     else if c1 = '0' && '1' ≤ c2 && c2 ≤ '9' then [(digitVal c2, rest)]
     else []) ++
    (if '1' ≤ c1 && c1 ≤ '9' then [(digitVal c1, c2 :: rest)] else [])
  | [c1] => if '1' ≤ c1 && c1 ≤ '9' then [(digitVal c1, [])] else []
  | [] => []

def expectChar (c : Char) : List Char → Option (List Char)
  | x :: rest => if x = c then some rest else none
  | [] => none

/-- `datetime.date(y, m, d)`, raising (`none`) on an invalid date. -/
def mkValidDate (y m d : Nat) : Option Date :=
  let dt : Date := ⟨y, m, d⟩
  if dt.valid then some dt else none

/-- `strptime(s, "%Y<sep>%m<sep>%d")` for a literal separator. -/
def strptimeYmd (sep : Char) (s : String) : Option Date :=
  match yearMatch s.data with
  | none => none
  | some (y, r1) =>
    match expectChar sep r1 with
    | none => none
    | some r2 =>
      (monthCands r2).findSome? (fun mc =>
        match expectChar sep mc.2 with
        | none => none
        | some r3 =>
          (dayCands r3).findSome? (fun dc =>
            if dc.2 = [] then mkValidDate y mc.1 dc.1 else none))

/-- `strptime(s, "%d<sep>%m<sep>%Y")` for a literal separator. -/
def strptimeDmy (sep : Char) (s : String) : Option Date :=
  (dayCands s.data).findSome? (fun dc =>
    match expectChar sep dc.2 with
    | none => none
    | some r1 =>
      (monthCands r1).findSome? (fun mc =>
        match expectChar sep mc.2 with
        | none => none
        | some r2 =>
          match yearMatch r2 with
          | some (y, []) => mkValidDate y mc.1 dc.1
          | _ => none))

/-- `strptime(s, "%m/%d/%Y")`. -/
def strptimeMdySlash (s : String) : Option Date :=
  (monthCands s.data).findSome? (fun mc =>
    match expectChar '/' mc.2 with
    | none => none
    | some r1 =>
      (dayCands r1).findSome? (fun dc =>
        match expectChar '/' dc.2 with
        | none => none
        | some r2 =>
          match yearMatch r2 with
          | some (y, []) => mkValidDate y mc.1 dc.1
          | _ => none))

/-- The format list of `_parse_date` (validators.py line 23), in source
order. -/
def parseYmdDash (s : String) : Option Date := strptimeYmd '-' s
def parseDmyDash (s : String) : Option Date := strptimeDmy '-' s
def parseMdySlash (s : String) : Option Date := strptimeMdySlash s
def parseDmySlash (s : String) : Option Date := strptimeDmy '/' s

/-- Model of `_parse_date` (validators.py lines 20-28): `None` for a falsy
argument; otherwise try the four formats in order, first success wins; a
non-string truthy argument makes every `strptime` raise `TypeError`, which
the loop's `except` absorbs, so the result is `None`. -/
def parse_date (v : Json) : Option Date :=
  if v.truthy = false then none
  else
    match v with
    | Json.str s =>
      match parseYmdDash s with
      | some d => some d
      | none =>
        match parseDmyDash s with
        | some d => some d
        | none =>
          match parseMdySlash s with
          | some d => some d
          | none => parseDmySlash s
    | _ => none

/- ===== Name normalization (model of _normalize_name) ===== -/

/-- Finite table of NFKD decompositions for common precomposed Latin
letters (acute 0301, grave 0300, circumflex 0302, tilde 0303, diaeresis
0308, cedilla 0327); `unicodedata.normalize("NFKD", _)` is modelled by
this table and the identity on every other character. -/
def nfkdTable : List (Char × List Char) :=
  [('á', ['a', '́']), ('é', ['e', '́']), ('í', ['i', '́']),
   ('ó', ['o', '́']), ('ú', ['u', '́']), ('ý', ['y', '́']),
   ('à', ['a', '̀']), ('è', ['e', '̀']), ('ì', ['i', '̀']),
   ('ò', ['o', '̀']), ('ù', ['u', '̀']),
   ('â', ['a', '̂']), ('ê', ['e', '̂']), ('î', ['i', '̂']),
   ('ô', ['o', '̂']), ('û', ['u', '̂']),
   ('ã', ['a', '̃']), ('ñ', ['n', '̃']), ('õ', ['o', '̃']),
   ('ä', ['a', '̈']), ('ë', ['e', '̈']), ('ï', ['i', '̈']),
   ('ö', ['o', '̈']), ('ü', ['u', '̈']), ('ÿ', ['y', '̈']),
   ('ç', ['c', '̧']),
   ('Á', ['A', '́']), ('É', ['E', '́']), ('Í', ['I', '́']),
   ('Ó', ['O', '́']), ('Ú', ['U', '́']), ('Ý', ['Y', '́']),
   ('À', ['A', '̀']), ('È', ['E', '̀']), ('Ì', ['I', '̀']),
   ('Ò', ['O', '̀']), ('Ù', ['U', '̀']),
   ('Â', ['A', '̂']), ('Ê', ['E', '̂']), ('Î', ['I', '̂']),
   ('Ô', ['O', '̂']), ('Û', ['U', '̂']),
   ('Ã', ['A', '̃']), ('Ñ', ['N', '̃']), ('Õ', ['O', '̃']),
   ('Ä', ['A', '̈']), ('Ë', ['E', '̈']), ('Ï', ['I', '̈']),
   ('Ö', ['O', '̈']), ('Ü', ['U', '̈']),
   ('Ç', ['C', '̧'])]

def nfkdChar (c : Char) : List Char :=
  match nfkdTable.find? (fun p => p.1 = c) with
  | some p => p.2
  | none => [c]

def nfkd (s : String) : String :=
  String.mk (s.data.flatMap nfkdChar)

/-- Python `str.lower` (ASCII model; accented letters are decomposed to
ASCII before lowercasing in the pipeline below, as in the source). -/
def pyLower (s : String) : String :=
  String.mk (s.data.map Char.toLower)

/-- One character of `re.sub(r"[^a-z\s]", " ", text)`: anything that is
not a lowercase ASCII letter and not whitespace becomes a space. -/
def keepLetter (c : Char) : Char :=
  if ('a' ≤ c && c ≤ 'z') || isPyWs c then c else ' '

/-- Accumulating scan behind `splitWs`: split at whitespace runs, emitting
no empty tokens (`acc` holds the current token reversed). -/
def splitWsAux : List Char → List Char → List String
  | [], acc => if acc.isEmpty then [] else [String.mk acc.reverse]
  | c :: rest, acc =>
    if isPyWs c then
      if acc.isEmpty then splitWsAux rest []
      else String.mk acc.reverse :: splitWsAux rest []
    else splitWsAux rest (c :: acc)

/-- Python `text.split()` (split on whitespace runs, no empty tokens),
composed with the source's `[t for t in ... if t]` filter (a no-op on
`split()` output, kept for fidelity). -/
def splitWs (s : String) : List String :=
  (splitWsAux s.data []).filter (fun t => t ≠ "")

/-- The token list `_normalize_name` computes for a string argument:
NFKD-decompose, lowercase, replace non-letters by spaces, tokenize. -/
def nameTokens (s : String) : List String :=
  splitWs (String.mk (((nfkd s).data.map Char.toLower).map keepLetter))

/-- Model of `_normalize_name` (validators.py lines 11-17): `[]` for a
falsy argument; the token pipeline for a string; a truthy non-string
argument makes `unicodedata.normalize` raise `TypeError`, which
`_normalize_name` does not catch (`none`). -/
def normalize_name (v : Json) : Option (List String) :=
  if v.truthy = false then some []
  else
    match v with
    | Json.str s => some (nameTokens s)
    | _ => none

/-- Python `set(xs) == set(ys)` for string lists: mutual membership. -/
def pySetEq (xs ys : List String) : Bool :=
  xs.all (fun a => decide (a ∈ ys)) && ys.all (fun a => decide (a ∈ xs))

/- ===== Python string comparison (for the expiry check) ===== -/

/-- Lexicographic code-point comparison of char lists, as Python compares
strings. -/
def charListLt : List Char → List Char → Bool
  | [], [] => false
  | [], _ :: _ => true
  | _ :: _, [] => false
  | a :: as, b :: bs => if a < b then true else if b < a then false else charListLt as bs

/-- Python `a >= b` on strings. -/
def pyStrGe (a b : String) : Bool := !charListLt a.data b.data

/- ===== Validators (validators.py) ===== -/

/-- The required-field list of `validate_required_fields_passport`
(validators.py line 34), in source order. -/
def requiredPassport : List String :=
  ["name", "dob", "expiry_date", "id_number", "issuing_country"]

/-- The required-field list of `validate_required_fields_drivers_license`
(validators.py line 55), in source order. -/
def requiredDriversLicense : List String :=
  ["name", "dob", "expiry_date", "id_number", "issuing_state", "address"]

/-- Status of the `expiry_future` item (validators.py lines 36-41 and
57-62).  The guarded expression `d.get(k) and d[k] >= today` yields `False`
(hence "fail") for a falsy value without evaluating the comparison;
a truthy string is compared lexicographically with `date.today
().isoformat()`; a truthy non-string raises `TypeError` in the comparison,
absorbed by the `except` into "warn". -/
def expiryStatus (d : FieldRecord) (today : Date) : Status :=
  let v := d.get "expiry_date"
  if v.truthy = false then Status.fail
  else
    match v with
    | Json.str s => if pyStrGe s today.iso then Status.pass else Status.fail
    | _ => Status.warn

/-- Status of the `age_check` item (validators.py lines 42-48 and 63-69).
`d.get("dob", "")` feeds `strptime(_, "%Y-%m-%d")`: an absent key gives
`""` (ValueError), a stored `null` gives `None` (TypeError), any other
non-string raises too — all absorbed into "warn"; a parsed date gives
pass/fail by `(today - dob).days // 365 >= 18` (Python `//` is floor
division, `Int.fdiv`). -/
def ageStatus (d : FieldRecord) (today : Date) : Status :=
  match d.get "dob" with
  | Json.str s =>
    match parseYmdDash s with
    | some dob =>
      if 18 ≤ Int.fdiv ((Date.toOrdinal today : Int) - (Date.toOrdinal dob : Int)) 365
      then Status.pass else Status.fail
    | none => Status.warn
  | _ => Status.warn

/-- Model of `validate_required_fields_passport` (validators.py lines
31-49), with `date.today()` as the explicit `today`. -/
def validate_required_fields_passport (d : FieldRecord) (today : Date) : List Outcome :=
  (requiredPassport.map (fun k =>
    ⟨"required:" ++ k, if (d.get k).truthy then Status.pass else Status.fail⟩)) ++
  [⟨"expiry_future", expiryStatus d today⟩, ⟨"age_check", ageStatus d today⟩]

/-- Model of `validate_required_fields_drivers_license` (validators.py
lines 52-70). -/
def validate_required_fields_drivers_license (d : FieldRecord) (today : Date) : List Outcome :=
  (requiredDriversLicense.map (fun k =>
    ⟨"required:" ++ k, if (d.get k).truthy then Status.pass else Status.fail⟩)) ++
  [⟨"expiry_future", expiryStatus d today⟩, ⟨"age_check", ageStatus d today⟩]

/-- Model of `validate_consistency_passport_and_drivers_license`
(validators.py lines 73-92).  The executed body is purely rule-based (the
LLM fallback is commented out behind the `return`): name token sets must
be non-empty and equal, DOBs must both parse and be equal.  A truthy
non-string name makes `_normalize_name` raise `TypeError`, which nothing
catches (`none`). -/
def validate_consistency_passport_and_drivers_license
    (passport drivers_license : FieldRecord) : Option (List Outcome) :=
  match normalize_name (passport.get "name"), normalize_name (drivers_license.get "name") with
  | some p_tokens, some d_tokens =>
    let name_rule : Bool := !p_tokens.isEmpty && !d_tokens.isEmpty && pySetEq p_tokens d_tokens
    let dob_rule : Bool :=
      match parse_date (passport.get "dob"), parse_date (drivers_license.get "dob") with
      | some a, some b => decide (a = b)
      | _, _ => false
    some [⟨"consistency:name", if name_rule then Status.pass else Status.fail⟩,
          ⟨"consistency:dob", if dob_rule then Status.pass else Status.fail⟩]
  | _, _ => none

/- ===== Document type inference and integrity (verify.py) ===== -/

/-- Python `str.upper` (ASCII model). -/
def pyUpper (s : String) : String :=
  String.mk (s.data.map Char.toUpper)

/-- Python `needle in haystack` on strings. -/
def containsSubstr (hay needle : String) : Bool :=
  (List.range (hay.data.length + 1)).any (fun i => needle.data.isPrefixOf (hay.data.drop i))

/-- Result of `verify_document_type`; the source's `match` key is spelled
`matchFlag` (`match` is a Lean keyword). -/
structure TypeInferenceResult where
  expected_type : String
  inferred_type : String
  matchFlag : Bool
deriving DecidableEq

/-- Model of `verify_document_type` (verify.py lines 13-31).  The OCR
gateway call is the external boundary; its transcription is the `ocr_text`
argument. -/
def verify_document_type (ocr_text : String) (doc_type : String) : TypeInferenceResult :=
  let raw_text_upper := pyUpper ocr_text
  let inferred_type :=
    if containsSubstr raw_text_upper "PASSPORT" then "passport"
    else if containsSubstr raw_text_upper "DRIVER" || containsSubstr raw_text_upper "DL" ||
            containsSubstr raw_text_upper "DRIVER LICENSE" then "drivers_license"
    else "unknown"
  ⟨doc_type, inferred_type, inferred_type == doc_type⟩

/-- Fraud-assessment prompt for passports (verify.py lines 38-55; source
indentation normalized, braces escaped). -/
def passportIntegrityPrompt : String :=
  "You are a cautious identity verification assistant.\n" ++
  "You are shown an image of a passport\n" ++
  "Your task is to assess whether the document appears authentic or suspicious.\n\n" ++
  "Return ONLY JSON with the following fields:\n" ++
  "\x7b\n\"is_suspected_fraud\": true | false,\n\"confidence\": 0.0-1.0,\n" ++
  "\"explanation\": \"short rationale\"\n\x7d\n" ++
  "If the document is not a passport, return \"is_suspected_fraud\": true with high confidence and explain.\n\n" ++
  "Guidelines:\n" ++
  "- Look for tampering: mismatched fonts, cut-and-paste artifacts, blurred text, misaligned photo, missing hologram/barcode/MRZ.\n" ++
  "- Look for validity: presence of MRZ lines (passport) consistent fonts, correct placement of fields.\n" ++
  "- If uncertain, return \"is_suspected_fraud\": false with low confidence and explain.\n" ++
  "- Do not hallucinate security features that are not visible."

/-- Fraud-assessment prompt for driver's licenses (verify.py lines 58-73;
source indentation normalized, braces escaped). -/
def driversLicenseIntegrityPrompt : String :=
  "You are a cautious identity verification assistant.\n" ++
  "You are shown an image of a driver's license\n" ++
  "Your task is to assess whether the document appears authentic or suspicious.\n\n" ++
  "Return ONLY JSON with the following fields:\n" ++
  "\x7b\n\"is_suspected_fraud\": true | false,\n\"confidence\": 0.0-1.0,\n" ++
  "\"explanation\": \"short rationale\"\n\x7d\n" ++
  "If the document is not a driver's license, return \"is_suspected_fraud\": true with high confidence and explain.\n" ++
  "Guidelines:\n" ++
  "- Look for tampering: mismatched fonts, cut-and-paste artifacts, blurred text, misaligned photo, missing hologram/barcode/MRZ.\n" ++
  "- Look for validity: presence of PDF417 barcode (DL), consistent fonts, correct placement of fields.\n" ++
  "- If uncertain, return \"is_suspected_fraud\": false with low confidence and explain.\n" ++
  "- Do not hallucinate security features that are not visible."

/-- Model of `verify_document_integrity` (verify.py lines 36-77).  `prompt`
is assigned only inside the two `if/elif` branches; any other `doc_type`
reaches `fireworks_llm.extract_bytes(prompt, ...)` with `prompt` unbound,
raising `UnboundLocalError` (the `error` case).  For the two known types
the function returns the parsed reply of the model call, whose reply text
is the `model_reply` argument. -/
def verify_document_integrity (doc_type : String) (model_reply : String) :
    Except String Json :=
  if doc_type = "passport" then
    Except.ok (extract_bytes passportIntegrityPrompt model_reply)
  else if doc_type = "drivers_license" then
    Except.ok (extract_bytes driversLicenseIntegrityPrompt model_reply)
  else
    Except.error "UnboundLocalError: local variable 'prompt' referenced before assignment"

/-- Whether an `Except` result models a raised exception. -/
def exceptIsError : Except String Json → Bool
  | Except.error _ => true
  | Except.ok _ => false

/- ===== Helper lemmas ===== -/

/-- A well-formed record yields only `null`-or-string values through `get`. -/
theorem get_isNullOrStr (d : FieldRecord) (h : WellFormedRecord d) (k : String) :
    isNullOrStr (d.get k) = true := by
  unfold FieldRecord.get
  cases hf : List.find? (fun p => p.1 = k) d with
  | none => rfl
  | some p => exact h p (List.mem_of_find?_eq_some hf)

/-- A null-or-string value splits into the two shapes. -/
theorem isNullOrStr_cases (v : Json) (h : isNullOrStr v = true) :
    v = Json.null ∨ ∃ s, v = Json.str s := by
  cases v with
  | null => exact Or.inl rfl
  | str s => exact Or.inr ⟨s, rfl⟩
  | bool b => simp [isNullOrStr] at h
  | num n => simp [isNullOrStr] at h
  | float l => simp [isNullOrStr] at h
  | arr l => simp [isNullOrStr] at h
  | obj l => simp [isNullOrStr] at h

/-- `_normalize_name` never raises on a null-or-string value. -/
theorem normalize_name_total (v : Json) (h : isNullOrStr v = true) :
    ∃ ts, normalize_name v = some ts := by
  rcases isNullOrStr_cases v h with hn | ⟨s, hs⟩
  · exact ⟨[], by rw [hn]; rfl⟩
  · subst hs
    by_cases h0 : s = ""
    · subst h0; exact ⟨[], rfl⟩
    · exact ⟨nameTokens s, by simp [normalize_name, Json.truthy, h0]⟩

/-- Python set equality of token lists coincides with `Finset` equality of
their element sets. -/
theorem pySetEq_iff (xs ys : List String) :
    pySetEq xs ys = true ↔ xs.toFinset = ys.toFinset := by
  simp only [pySetEq, Bool.and_eq_true, List.all_eq_true, decide_eq_true_eq]
  constructor
  · rintro ⟨h1, h2⟩
    apply Finset.ext
    intro a
    simp only [List.mem_toFinset]
    exact ⟨fun ha => h1 a ha, fun ha => h2 a ha⟩
  · intro h
    have hm : ∀ a : String, a ∈ xs ↔ a ∈ ys := by
      intro a
      have := Finset.ext_iff.mp h a
      simpa [List.mem_toFinset] using this
    exact ⟨fun a ha => (hm a).mp ha, fun a ha => (hm a).mpr ha⟩

/-- Containing `"DRIVER LICENSE"` implies containing `"DRIVER"`. -/
theorem containsSubstr_driver (u : String) (h : containsSubstr u "DRIVER LICENSE" = true) :
    containsSubstr u "DRIVER" = true := by
  unfold containsSubstr at h ⊢
  simp only [List.any_eq_true] at h ⊢
  obtain ⟨i, hi, hpre⟩ := h
  refine ⟨i, hi, ?_⟩
  rw [ List.isPrefixOf_iff_prefix] at hpre ⊢
  have hsub : ("DRIVER".data) <+: ("DRIVER LICENSE".data) := ⟨" LICENSE".data, by decide⟩
  exact hsub.trans hpre

/-- Floor division by 365 reaches 18 exactly at 6570 days. -/
theorem fdiv_365_ge_18 (x : Int) : 18 ≤ Int.fdiv x 365 ↔ 18 * 365 ≤ x := by
  rw [Int.fdiv_eq_ediv x (by norm_num)]
  omega

/- ===== Claim C1 ===== -/

/-- Claim C1 is false on the code: for a record with `expiry_date` absent
(equivalently stored as null — `d.get` cannot tell them apart), both
validators emit `expiry_future` with status fail, not warn, because the
guard `d.get(k) and d[k] >= today` evaluates to `False` without raising. -/
theorem c1_counterexample :
    (validate_required_fields_passport [] ⟨2026, 10, 12⟩).filter
        (fun o => o.name = "expiry_future") = [⟨"expiry_future", Status.fail⟩] ∧
    (validate_required_fields_drivers_license [("expiry_date", Json.null)] ⟨2026, 10, 12⟩).filter
        (fun o => o.name = "expiry_future") = [⟨"expiry_future", Status.fail⟩] ∧
    Status.fail ≠ Status.warn := by
  decide

/-- Claim C1 as amended: both validators emit exactly one `expiry_future`
outcome; its status is fail when `expiry_date` is missing, null or falsy,
pass/fail by lexicographic comparison with today's ISO date when the value
is a truthy string, and warn only when the value is truthy but not a
string (the only case in which the comparison raises). -/
theorem c1_expiry_future (d : FieldRecord) (today : Date) :
    (⟨"expiry_future", expiryStatus d today⟩ : Outcome) ∈
      validate_required_fields_passport d today ∧
    (⟨"expiry_future", expiryStatus d today⟩ : Outcome) ∈
      validate_required_fields_drivers_license d today ∧
    ((d.get "expiry_date").truthy = false → expiryStatus d today = Status.fail) ∧
    (∀ s, d.get "expiry_date" = Json.str s → (Json.str s).truthy = true →
      expiryStatus d today = (if pyStrGe s today.iso then Status.pass else Status.fail)) ∧
    (∀ v, d.get "expiry_date" = v → v.truthy = true → (∀ s, v ≠ Json.str s) →
      expiryStatus d today = Status.warn) := by
  refine ⟨?_, ?_, ?_, ?_, ?_⟩
  · simp [validate_required_fields_passport]
  · simp [validate_required_fields_drivers_license]
  · intro h
    simp [expiryStatus, h]
  · intro s hs ht
    simp [expiryStatus, hs, ht]
  · intro v hv ht hns
    cases v with
    | str s => exact absurd rfl (hns s)
    | null => rw [Json.truthy] at ht; exact absurd ht (by decide)
    | bool b => simp [expiryStatus, hv, ht]
    | num n => simp [expiryStatus, hv, ht]
    | float l => simp [expiryStatus, hv, ht]
    | arr l => simp [expiryStatus, hv, ht]
    | obj l => simp [expiryStatus, hv, ht]

/-- Witness for `c1_expiry_future` at concrete inputs. -/
theorem c1_expiry_future_witness :
    expiryStatus [("expiry_date", Json.str "2030-01-01")] ⟨2026, 10, 12⟩ = Status.pass ∧
    expiryStatus [("expiry_date", Json.num 5)] ⟨2026, 10, 12⟩ = Status.warn ∧
    expiryStatus [] ⟨2026, 10, 12⟩ = Status.fail := by
  refine ⟨?_, ?_, ?_⟩
  · rw [(c1_expiry_future [("expiry_date", Json.str "2030-01-01")] ⟨2026, 10, 12⟩).2.2.2.1
      "2030-01-01" rfl (by decide)]
    decide
  · exact (c1_expiry_future [("expiry_date", Json.num 5)] ⟨2026, 10, 12⟩).2.2.2.2
      (Json.num 5) rfl (by decide) (fun s => by simp)
  · exact (c1_expiry_future [] ⟨2026, 10, 12⟩).2.2.1 (by decide)

/- ===== Claim C2 ===== -/

/-- Claim C2 is false on the code: the parser returns the decoded value
unconditionally on decode success, even when it is not a mapping.  For the
reply `"42"` the decoded value is the number 42 and the function returns
it, not the empty mapping. -/
theorem c2_counterexample :
    extract_bytes "p" "42" = Json.num 42 ∧ Json.num 42 ≠ Json.obj [] := by
  constructor
  · rfl
  · intro h
    exact Json.noConfusion h

/-- Claim C2 as amended: the parser strips the code fence, strictly
decodes the remainder, returns whatever value decoding yields (a mapping
or not), and returns the empty mapping exactly on decode failure; fenced
JSON round-trips and non-JSON prose yields `{}`. -/
theorem c2_parse (prompt text : String) :
    (∀ j, Json.parse (stripFence (pyStrip text)) = some j →
      extract_bytes prompt text = j) ∧
    (Json.parse (stripFence (pyStrip text)) = none →
      extract_bytes prompt text = Json.obj []) ∧
    extract_bytes prompt "```json\n\x7b\"name\":\"A\"\x7d\n```" =
      Json.obj [("name", Json.str "A")] ∧
    extract_bytes prompt "the document shows a passport" = Json.obj [] := by
  refine ⟨?_, ?_, rfl, rfl⟩
  · intro j h
    simp [extract_bytes, h]
  · intro h
    simp [extract_bytes, h]

/-- Witness for `c2_parse` at concrete inputs. -/
theorem c2_parse_witness :
    extract_bytes "p" "[1, 2]" = Json.arr [Json.num 1, Json.num 2] ∧
    extract_bytes "p" "no json here" = Json.obj [] := by
  constructor
  · exact (c2_parse "p" "[1, 2]").1 (Json.arr [Json.num 1, Json.num 2]) rfl
  · exact (c2_parse "p" "no json here").2.1 rfl

/- ===== Claim C3 ===== -/

/-- Claim C3: for every field record (under the data-model invariant that
values are optional strings) and each document type, the validator emits
for every required field exactly one outcome named `required:<field>`,
never omitted, whose status is fail exactly when the value is missing,
null, or empty, and pass otherwise. -/
theorem c3_required_fields (d : FieldRecord) (today : Date)
    (hwf : WellFormedRecord d) (k : String) :
    ((d.get k).truthy = false ↔ d.get k = Json.null ∨ d.get k = Json.str "") ∧
    (k ∈ requiredPassport →
      (⟨"required:" ++ k, if (d.get k).truthy then Status.pass else Status.fail⟩ : Outcome)
        ∈ validate_required_fields_passport d today ∧
      ((validate_required_fields_passport d today).map Outcome.name).count
        ("required:" ++ k) = 1) ∧
    (k ∈ requiredDriversLicense →
      (⟨"required:" ++ k, if (d.get k).truthy then Status.pass else Status.fail⟩ : Outcome)
        ∈ validate_required_fields_drivers_license d today ∧
      ((validate_required_fields_drivers_license d today).map Outcome.name).count
        ("required:" ++ k) = 1) := by
  refine ⟨?_, ?_, ?_⟩
  · rcases isNullOrStr_cases _ (get_isNullOrStr d hwf k) with hn | ⟨s, hs⟩
    · simp [hn, Json.truthy]
    · rw [hs]
      by_cases h0 : s = ""
      · subst h0; simp [Json.truthy]
      · simp [Json.truthy, h0]
  · intro hk
    constructor
    · simp only [validate_required_fields_passport, List.mem_append, List.mem_map]
      exact Or.inl ⟨k, hk, rfl⟩
    · simp only [requiredPassport, List.mem_cons, List.not_mem_nil, or_false] at hk
      rcases hk with h | h | h | h | h <;> subst h <;>
        simp [validate_required_fields_passport, requiredPassport]
  · intro hk
    constructor
    · simp only [validate_required_fields_drivers_license, List.mem_append, List.mem_map]
      exact Or.inl ⟨k, hk, rfl⟩
    · simp only [requiredDriversLicense, List.mem_cons, List.not_mem_nil, or_false] at hk
      rcases hk with h | h | h | h | h | h <;> subst h <;>
        simp [validate_required_fields_drivers_license, requiredDriversLicense]

/-- Witness for `c3_required_fields` at concrete inputs. -/
theorem c3_required_fields_witness :
    ((FieldRecord.get [("name", Json.str "")] "name").truthy = false ↔
      FieldRecord.get [("name", Json.str "")] "name" = Json.null ∨
      FieldRecord.get [("name", Json.str "")] "name" = Json.str "") ∧
    (⟨"required:" ++ "name",
      if (FieldRecord.get [("name", Json.str "")] "name").truthy
      then Status.pass else Status.fail⟩ : Outcome)
      ∈ validate_required_fields_passport [("name", Json.str "")] ⟨2026, 10, 12⟩ := by
  have h := c3_required_fields [("name", Json.str "")] ⟨2026, 10, 12⟩ (by decide) "name"
  exact ⟨h.1, (h.2.1 (by decide)).1⟩

/- ===== Claim C4 ===== -/

/-- Claim C4: when both name values are strings (or null/absent, which
normalize to the empty token list), the `consistency:name` outcome is pass
exactly when the two normalized token sets are non-empty and equal as
sets, hence invariant under token reordering and duplication; the concrete
reorder scenario "JOHN Q DOE" vs "DOE JOHN Q" passes. -/
theorem c4_name_consistency (p d : FieldRecord) (pT dT : List String)
    (hp : normalize_name (FieldRecord.get p "name") = some pT)
    (hd : normalize_name (FieldRecord.get d "name") = some dT) :
    (validate_consistency_passport_and_drivers_license p d =
      some [⟨"consistency:name",
             if pT ≠ [] ∧ dT ≠ [] ∧ pT.toFinset = dT.toFinset
             then Status.pass else Status.fail⟩,
            ⟨"consistency:dob",
             if (match parse_date (FieldRecord.get p "dob"),
                       parse_date (FieldRecord.get d "dob") with
                 | some a, some b => decide (a = b)
                 | _, _ => false) = true
             then Status.pass else Status.fail⟩]) ∧
    validate_consistency_passport_and_drivers_license
        [("name", Json.str "JOHN Q DOE")] [("name", Json.str "DOE JOHN Q")] =
      some [⟨"consistency:name", Status.pass⟩, ⟨"consistency:dob", Status.fail⟩] := by
  constructor
  · unfold validate_consistency_passport_and_drivers_license
    rw [hp, hd]
    dsimp only
    have hcond : (!pT.isEmpty && !dT.isEmpty && pySetEq pT dT) = true ↔
        (pT ≠ [] ∧ dT ≠ [] ∧ pT.toFinset = dT.toFinset) := by
      rw [Bool.and_eq_true, Bool.and_eq_true]
      rw [pySetEq_iff]
      simp [List.isEmpty_iff, and_assoc]
    by_cases h : pT ≠ [] ∧ dT ≠ [] ∧ pT.toFinset = dT.toFinset
    · rw [if_pos (hcond.mpr h), if_pos h]
    · rw [if_neg (fun hb => h (hcond.mp hb)), if_neg h]
  · decide

/-- Witness for `c4_name_consistency` at concrete inputs (duplicated and
reordered tokens still pass; an empty token set fails). -/
theorem c4_name_consistency_witness :
    validate_consistency_passport_and_drivers_license
        [("name", Json.str "ANA B ANA")] [("name", Json.str "B ANA")] =
      some [⟨"consistency:name", Status.pass⟩, ⟨"consistency:dob", Status.fail⟩] ∧
    validate_consistency_passport_and_drivers_license
        [("name", Json.str "1234")] [("name", Json.str "1234")] =
      some [⟨"consistency:name", Status.fail⟩, ⟨"consistency:dob", Status.fail⟩] := by
  constructor
  · rw [(c4_name_consistency [("name", Json.str "ANA B ANA")] [("name", Json.str "B ANA")]
      ["ana", "b", "ana"] ["b", "ana"] rfl rfl).1]
    decide
  · rw [(c4_name_consistency [("name", Json.str "1234")] [("name", Json.str "1234")]
      [] [] rfl rfl).1]
    decide

/- ===== Claim C5 ===== -/

/-- Claim C5: the date parser tries `%Y-%m-%d`, `%d-%m-%Y`, `%m/%d/%Y`,
`%d/%m/%Y` in exactly that order with the first success winning (so
"03/04/1990" is March 4, 1990 — the first two formats fail on it, the
third parses it, and the fourth would have read it as April 3); whenever
the consistency check returns a result, its `consistency:dob` outcome is
pass exactly when both dob values parse under this precedence and denote
the same calendar day. -/
theorem c5_dob_consistency (p d : FieldRecord) (res : List Outcome)
    (h : validate_consistency_passport_and_drivers_license p d = some res) :
    (parseYmdDash "03/04/1990" = none ∧ parseDmyDash "03/04/1990" = none ∧
     parseMdySlash "03/04/1990" = some ⟨1990, 3, 4⟩ ∧
     parseDmySlash "03/04/1990" = some ⟨1990, 4, 3⟩ ∧
     parse_date (Json.str "03/04/1990") = some ⟨1990, 3, 4⟩) ∧
    (∀ s, parse_date (Json.str s) =
      (match parseYmdDash s with
       | some d1 => some d1
       | none =>
         match parseDmyDash s with
         | some d1 => some d1
         | none =>
           match parseMdySlash s with
           | some d1 => some d1
           | none => parseDmySlash s)) ∧
    (res[1]? = some ⟨"consistency:dob", Status.pass⟩ ↔
      ∃ a b, parse_date (FieldRecord.get p "dob") = some a ∧
             parse_date (FieldRecord.get d "dob") = some b ∧ a = b) := by
  refine ⟨by decide, ?_, ?_⟩
  · intro s
    by_cases h0 : s = ""
    · subst h0; decide
    · have ht : (Json.str s).truthy = true := by simp [Json.truthy, h0]
      simp only [parse_date, ht]
      rfl
  · unfold validate_consistency_passport_and_drivers_license at h
    cases hp : normalize_name (FieldRecord.get p "name") with
    | none => rw [hp] at h; exact absurd h (by simp)
    | some pT =>
      cases hd : normalize_name (FieldRecord.get d "name") with
      | none => rw [hp, hd] at h; exact absurd h (by simp)
      | some dT =>
        rw [hp, hd] at h
        injection h with h2
        subst h2
        cases hpd : parse_date (FieldRecord.get p "dob") with
        | none => simp [hpd]
        | some a0 =>
          cases hdd : parse_date (FieldRecord.get d "dob") with
          | none => simp [hpd, hdd]
          | some b0 =>
            by_cases hab : a0 = b0 <;> simp [hpd, hdd, hab]

/-- Witness for `c5_dob_consistency` at concrete inputs: equal birth dates
written in two different accepted formats pass. -/
theorem c5_dob_consistency_witness :
    ([(⟨"consistency:name", Status.pass⟩ : Outcome),
      ⟨"consistency:dob", Status.pass⟩][1]? = some ⟨"consistency:dob", Status.pass⟩) ∧
    (∃ a b, parse_date (FieldRecord.get
        [("name", Json.str "A B"), ("dob", Json.str "03/04/1990")] "dob") = some a ∧
      parse_date (FieldRecord.get
        [("name", Json.str "B A"), ("dob", Json.str "1990-03-04")] "dob") = some b ∧
      a = b) := by
  have h := (c5_dob_consistency
    [("name", Json.str "A B"), ("dob", Json.str "03/04/1990")]
    [("name", Json.str "B A"), ("dob", Json.str "1990-03-04")]
    [⟨"consistency:name", Status.pass⟩, ⟨"consistency:dob", Status.pass⟩]
    (by decide)).2.2
  exact ⟨by decide, h.mp (by decide)⟩

/- ===== Claim C6 ===== -/

/-- Claim C6: type inference uppercases the transcription and classifies
it as passport when it contains "PASSPORT" (checked first), else as
drivers_license when it contains "DRIVER" or "DL" (the source's extra
"DRIVER LICENSE" disjunct is subsumed by "DRIVER"), else unknown; the
match flag is true exactly when the inferred type equals the declared
type, and for a declared type in the document-type enumeration an
inferred "unknown" never matches. -/
theorem c6_type_inference (ocr_text doc_type : String)
    (hdt : doc_type = "passport" ∨ doc_type = "drivers_license") :
    ((verify_document_type ocr_text doc_type).inferred_type =
      if containsSubstr (pyUpper ocr_text) "PASSPORT" = true then "passport"
      else if containsSubstr (pyUpper ocr_text) "DRIVER" = true ∨
              containsSubstr (pyUpper ocr_text) "DL" = true then "drivers_license"
      else "unknown") ∧
    ((verify_document_type ocr_text doc_type).matchFlag = true ↔
      (verify_document_type ocr_text doc_type).inferred_type = doc_type) ∧
    ((verify_document_type ocr_text doc_type).inferred_type = "unknown" →
      (verify_document_type ocr_text doc_type).matchFlag = false) ∧
    (verify_document_type ocr_text doc_type).expected_type = doc_type := by
  have hinf : (verify_document_type ocr_text doc_type).inferred_type =
      (if containsSubstr (pyUpper ocr_text) "PASSPORT" = true then "passport"
       else if containsSubstr (pyUpper ocr_text) "DRIVER" = true ∨
               containsSubstr (pyUpper ocr_text) "DL" = true then "drivers_license"
       else "unknown") := by
    unfold verify_document_type
    dsimp only
    cases hP : containsSubstr (pyUpper ocr_text) "PASSPORT"
    · cases hD : containsSubstr (pyUpper ocr_text) "DRIVER"
      · cases hL : containsSubstr (pyUpper ocr_text) "DL"
        · cases hDL : containsSubstr (pyUpper ocr_text) "DRIVER LICENSE"
          · simp [hP, hD, hL, hDL]
          · exact absurd (containsSubstr_driver _ hDL) (by simp [hD])
        · simp [hP, hD, hL]
      · simp [hP, hD]
    · simp [hP]
  refine ⟨hinf, ?_, ?_, ?_⟩
  · unfold verify_document_type
    dsimp only
    exact beq_iff_eq
  · intro hu
    have hm : (verify_document_type ocr_text doc_type).matchFlag = true ↔
        (verify_document_type ocr_text doc_type).inferred_type = doc_type := by
      unfold verify_document_type
      dsimp only
      exact beq_iff_eq
    rw [hu] at hm
    rcases hdt with h | h
    · subst h
      cases hb : (verify_document_type ocr_text "passport").matchFlag
      · rfl
      · exact absurd (hm.mp hb) (by decide)
    · subst h
      cases hb : (verify_document_type ocr_text "drivers_license").matchFlag
      · rfl
      · exact absurd (hm.mp hb) (by decide)
  · rfl

/-- Witness for `c6_type_inference`: the specification's scenario — a
passport transcription with a declared driver's license does not match. -/
theorem c6_type_inference_witness :
    (verify_document_type "UNITED STATES PASSPORT No A123" "drivers_license").inferred_type
      = "passport" ∧
    (verify_document_type "UNITED STATES PASSPORT No A123" "drivers_license").matchFlag
      = false := by
  have h := c6_type_inference "UNITED STATES PASSPORT No A123" "drivers_license"
    (Or.inr rfl)
  constructor
  · rw [h.1]; decide
  · have := h.2.1
    cases hm : (verify_document_type "UNITED STATES PASSPORT No A123"
        "drivers_license").matchFlag
    · rfl
    · have h2 := this.mp hm
      rw [h.1] at h2
      exact absurd h2 (by decide)

/- ===== Claim C7 ===== -/

/-- Claim C7: both validators emit the `age_check` outcome; when the dob
value is a string that parses strictly as `YYYY-MM-DD`, the outcome is
pass exactly when the day difference to today, floor-divided by 365,
reaches 18 (equivalently, when it is at least 18 × 365 days — floor and
truncating division agree at this positive threshold), and fail otherwise;
when dob is missing, null, or unparseable, the outcome is warn. -/
theorem c7_age_check (d : FieldRecord) (today : Date) :
    (⟨"age_check", ageStatus d today⟩ : Outcome) ∈
      validate_required_fields_passport d today ∧
    (⟨"age_check", ageStatus d today⟩ : Outcome) ∈
      validate_required_fields_drivers_license d today ∧
    (∀ s dob, d.get "dob" = Json.str s → parseYmdDash s = some dob →
      (ageStatus d today = Status.pass ↔
        18 * 365 ≤ (Date.toOrdinal today : Int) - (Date.toOrdinal dob : Int)) ∧
      (ageStatus d today = Status.pass ∨ ageStatus d today = Status.fail)) ∧
    (d.get "dob" = Json.null → ageStatus d today = Status.warn) ∧
    (∀ s, d.get "dob" = Json.str s → parseYmdDash s = none →
      ageStatus d today = Status.warn) ∧
    (∀ x : Int, 18 ≤ Int.fdiv x 365 ↔ 18 * 365 ≤ x) := by
  refine ⟨?_, ?_, ?_, ?_, ?_, fdiv_365_ge_18⟩
  · simp [validate_required_fields_passport]
  · simp [validate_required_fields_drivers_license]
  · intro s dob hs hp
    unfold ageStatus
    rw [hs]
    dsimp only
    rw [hp]
    dsimp only
    by_cases hc : 18 ≤ Int.fdiv ((Date.toOrdinal today : Int) - (Date.toOrdinal dob : Int)) 365
    · rw [if_pos hc]
      exact ⟨⟨fun _ => (fdiv_365_ge_18 _).mp hc, fun _ => rfl⟩, Or.inl rfl⟩
    · rw [if_neg hc]
      exact ⟨⟨fun h => absurd h (by decide),
              fun h => absurd ((fdiv_365_ge_18 _).mpr h) hc⟩, Or.inr rfl⟩
  · intro h
    unfold ageStatus
    rw [h]
  · intro s hs hp
    unfold ageStatus
    rw [hs]
    dsimp only
    rw [hp]

/-- Witness for `c7_age_check` at concrete inputs. -/
theorem c7_age_check_witness :
    ageStatus [("dob", Json.str "1990-01-15")] ⟨2026, 10, 12⟩ = Status.pass ∧
    ageStatus [("dob", Json.null)] ⟨2026, 10, 12⟩ = Status.warn ∧
    ageStatus [("dob", Json.str "15/01/1990")] ⟨2026, 10, 12⟩ = Status.warn := by
  have h := c7_age_check [("dob", Json.str "1990-01-15")] ⟨2026, 10, 12⟩
  have h2 := c7_age_check [("dob", Json.null)] ⟨2026, 10, 12⟩
  have h3 := c7_age_check [("dob", Json.str "15/01/1990")] ⟨2026, 10, 12⟩
  refine ⟨?_, ?_, ?_⟩
  · exact ((h.2.2.1 "1990-01-15" ⟨1990, 1, 15⟩ rfl (by decide)).1).mpr (by decide)
  · exact h2.2.2.2.1 rfl
  · exact h3.2.2.2.2.1 "15/01/1990" rfl (by decide)

/- ===== Claim C8 ===== -/

/-- Claim C8 is false on the code: with dob 2010-01-01 the `age_check`
outcome is pass, not fail, on dates after 2028 (e.g. 2029-06-15), and the
pass/fail boundary falls on 2027-12-28 — the first day with 6570 = 18 × 365
days since birth — which is four days before the 18th birthday because the
365-day-year approximation ignores the four leap days of 2012-2024. -/
theorem c8_counterexample :
    ageStatus [("dob", Json.str "2010-01-01")] ⟨2029, 6, 15⟩ = Status.pass ∧
    (⟨"age_check", Status.pass⟩ : Outcome) ∈
      validate_required_fields_passport [("dob", Json.str "2010-01-01")] ⟨2029, 6, 15⟩ ∧
    ageStatus [("dob", Json.str "2010-01-01")] ⟨2027, 12, 28⟩ = Status.pass ∧
    ageStatus [("dob", Json.str "2010-01-01")] ⟨2027, 12, 27⟩ = Status.fail ∧
    Status.pass ≠ Status.fail := by
  decide

/-- Claim C8 as amended: for dob 2010-01-01 under a fixed clock the
outcome is pass exactly when at least 18 × 365 days have elapsed; that
boundary is 2027-12-28, while the 18th birthday 2028-01-01 is 18 × 365 + 4
days after birth, so every date after 2028 yields pass. -/
theorem c8_age_boundary (today : Date) :
    ageStatus [("dob", Json.str "2010-01-01")] today =
      (if 18 * 365 ≤ (Date.toOrdinal today : Int) - (Date.toOrdinal ⟨2010, 1, 1⟩ : Int)
       then Status.pass else Status.fail) ∧
    ((Date.toOrdinal ⟨2027, 12, 28⟩ : Int) - (Date.toOrdinal ⟨2010, 1, 1⟩ : Int)
      = 18 * 365) ∧
    ((Date.toOrdinal ⟨2028, 1, 1⟩ : Int) - (Date.toOrdinal ⟨2010, 1, 1⟩ : Int)
      = 18 * 365 + 4) := by
  refine ⟨?_, by decide, by decide⟩
  have h1 : FieldRecord.get [("dob", Json.str "2010-01-01")] "dob" =
      Json.str "2010-01-01" := rfl
  unfold ageStatus
  rw [h1]
  dsimp only
  rw [show parseYmdDash "2010-01-01" = some ⟨2010, 1, 1⟩ from by decide]
  dsimp only
  by_cases hc : 18 * 365 ≤ (Date.toOrdinal today : Int) - (Date.toOrdinal ⟨2010, 1, 1⟩ : Int)
  · rw [if_pos ((fdiv_365_ge_18 _).mpr hc), if_pos hc]
  · rw [if_neg (fun hb => hc ((fdiv_365_ge_18 _).mp hb)), if_neg hc]

/- ===== Claim C9 ===== -/

/-- Claim C9: on records obeying the FieldRecord data model the
consistency check always returns (no exception) a list of exactly two
outcomes named `consistency:name` and `consistency:dob`, and it is a pure
function — the embedding of the executed code path takes no model-reply
argument at all (the LLM fallback sits behind the `return` and is
commented out), so two invocations on the same pair agree. -/
theorem c9_consistency_pure (p d : FieldRecord)
    (hp : WellFormedRecord p) (hd : WellFormedRecord d) :
    (∃ s1 s2, validate_consistency_passport_and_drivers_license p d =
      some [⟨"consistency:name", s1⟩, ⟨"consistency:dob", s2⟩]) ∧
    validate_consistency_passport_and_drivers_license p d =
      validate_consistency_passport_and_drivers_license p d := by
  obtain ⟨pT, hpT⟩ := normalize_name_total _ (get_isNullOrStr p hp "name")
  obtain ⟨dT, hdT⟩ := normalize_name_total _ (get_isNullOrStr d hd "name")
  refine ⟨⟨if (!pT.isEmpty && !dT.isEmpty && pySetEq pT dT) = true
           then Status.pass else Status.fail,
          if (match parse_date (FieldRecord.get p "dob"),
                    parse_date (FieldRecord.get d "dob") with
              | some a, some b => decide (a = b)
              | _, _ => false) = true
           then Status.pass else Status.fail, ?_⟩, rfl⟩
  unfold validate_consistency_passport_and_drivers_license
  rw [hpT, hdT]

/-- Witness for `c9_consistency_pure` at concrete inputs. -/
theorem c9_consistency_pure_witness :
    ∃ s1 s2, validate_consistency_passport_and_drivers_license
        [("name", Json.str "JOHN DOE"), ("dob", Json.str "1990-01-15")]
        [("name", Json.str "DOE JOHN"), ("dob", Json.str "1990-01-15")] =
      some [⟨"consistency:name", s1⟩, ⟨"consistency:dob", s2⟩] :=
  (c9_consistency_pure
    [("name", Json.str "JOHN DOE"), ("dob", Json.str "1990-01-15")]
    [("name", Json.str "DOE JOHN"), ("dob", Json.str "1990-01-15")]
    (by decide) (by decide)).1

/- ===== Claim C10 ===== -/

/-- Claim C10: `verify_document_integrity` assigns its prompt only for
"passport" and "drivers_license"; any other document type reaches the
gateway call with `prompt` unassigned and raises `UnboundLocalError`
(the `error` case of the embedding), while the two known types return the
parsed model reply normally. -/
theorem c10_integrity_unbound (doc_type model_reply : String) :
    (exceptIsError (verify_document_integrity doc_type model_reply) = true ↔
      doc_type ≠ "passport" ∧ doc_type ≠ "drivers_license") ∧
    (doc_type = "passport" →
      verify_document_integrity doc_type model_reply =
        Except.ok (extract_bytes passportIntegrityPrompt model_reply)) ∧
    (doc_type = "drivers_license" →
      verify_document_integrity doc_type model_reply =
        Except.ok (extract_bytes driversLicenseIntegrityPrompt model_reply)) := by
  unfold verify_document_integrity
  by_cases h1 : doc_type = "passport"
  · simp [h1, exceptIsError]
  · by_cases h2 : doc_type = "drivers_license"
    · simp [h1, h2, exceptIsError]
    · simp [h1, h2, exceptIsError]

/-- Witness for `c10_integrity_unbound` at concrete inputs. -/
theorem c10_integrity_unbound_witness :
    verify_document_integrity "passport" "not json" = Except.ok (Json.obj []) ∧
    exceptIsError (verify_document_integrity "selfie" "x") = true := by
  constructor
  · rw [(c10_integrity_unbound "passport" "not json").2.1 rfl]
    rfl
  · exact ((c10_integrity_unbound "selfie" "x").1).mpr ⟨by decide, by decide⟩
